import Mathlib

/-!
Verification of the colour-difference computation engine of the repository:
the method registry and dispatch contract of colour.difference.delta_E, and
the colour-difference formulas it dispatches to.

The dispatcher (colour/difference/init module: DELTA_E_METHODS, delta_E) is
translated from the source.  The formula implementations and the utilities
validate_method, filter_kwargs, CanonicalMapping and domain_range_scale are
not part of the provided sources (only their callers and tests are), so they
are modelled from the specification, as marked in their doc comments.
-/

open Real

/-- A colour coordinate: a 3-component numeric value (for example CIE Lab
with fields L, a, b; the ITP and CAM-UCS formulas read the three components
positionally in the same way). -/
structure Tri where
  L : ℝ
  a : ℝ
  b : ℝ

/-- Componentwise scaling of a colour coordinate by a scalar factor. -/
noncomputable def Tri.scale (k : ℝ) (t : Tri) : Tri :=
  ⟨k * t.L, k * t.a, k * t.b⟩

/-- Modelled from the spec: the process-wide domain-range scale state, an
enumeration with values reference, 1 and 100. -/
inductive DomainRangeScale where
  | reference : DomainRangeScale
  | one : DomainRangeScale
  | hundred : DomainRangeScale

/-- Modelled from the spec: conversion of an input to the native 0..100
domain under the active domain-range scale.  Under scale 1 the raw inputs
are normalized to 0..1 and are multiplied by 100; under scales reference
and 100 they are already in native units and are left unchanged. -/
noncomputable def to_domain_100 (s : DomainRangeScale) (t : Tri) : Tri :=
  match s with
  | .one => ⟨100 * t.L, 100 * t.a, 100 * t.b⟩
  | _ => t

/-- Modelled from the spec: conversion of an input to the normalized 0..1
domain under the active domain-range scale (used by the ITP formula, whose
native coordinates are 0..1). -/
noncomputable def to_domain_1 (s : DomainRangeScale) (t : Tri) : Tri :=
  match s with
  | .hundred => ⟨t.L / 100, t.a / 100, t.b / 100⟩
  | _ => t

/-- Euclidean distance between two 3-component coordinates. -/
noncomputable def euclidean (p q : Tri) : ℝ :=
  Real.sqrt ((p.L - q.L) ^ 2 + (p.a - q.a) ^ 2 + (p.b - q.b) ^ 2)

/-- Chroma of a Lab coordinate: the radial magnitude in the a, b plane. -/
noncomputable def C_star (t : Tri) : ℝ :=
  Real.sqrt (t.a ^ 2 + t.b ^ 2)

/-- Conversion of degrees to radians, applied at trig-call boundaries. -/
noncomputable def deg2rad (d : ℝ) : ℝ :=
  d * π / 180

/-- Conversion of radians to degrees. -/
noncomputable def rad2deg (r : ℝ) : ℝ :=
  r * 180 / π

/-- Two-argument arctangent with range (-pi, pi], as used by the hue
computations (the numpy arctan2 convention). -/
noncomputable def atan2 (y x : ℝ) : ℝ :=
  if 0 < x then Real.arctan (y / x)
  else if x < 0 then
    (if 0 ≤ y then Real.arctan (y / x) + π else Real.arctan (y / x) - π)
  else
    (if 0 < y then π / 2 else if y < 0 then -(π / 2) else 0)

/-- Hue angle in degrees of the point (x, y) of the a, b plane, normalized
to the interval from 0 (inclusive) to 360 (exclusive). -/
noncomputable def hueDeg (y x : ℝ) : ℝ :=
  let d := rad2deg (atan2 y x)
  if d < 0 then d + 360 else d

/-- Modelled from the spec: the CIE 1976 colour-difference formula, the
Euclidean distance in Lab space (the implementation delta_E_CIE1976 is not
under the provided sources). -/
noncomputable def delta_E_CIE1976 (s : DomainRangeScale) (Lab_1 Lab_2 : Tri) : ℝ :=
  euclidean (to_domain_100 s Lab_1) (to_domain_100 s Lab_2)

-- basic evaluation lemmas for the scale conversions

theorem to_domain_100_reference (t : Tri) : to_domain_100 .reference t = t := rfl

theorem to_domain_100_hundred (t : Tri) : to_domain_100 .hundred t = t := rfl

theorem to_domain_100_one_scale (t : Tri) :
    to_domain_100 .one (Tri.scale 0.01 t) = t := by
  cases t with
  | mk L a b =>
    simp only [to_domain_100, Tri.scale, Tri.mk.injEq]
    exact ⟨by ring, by ring, by ring⟩

/-- Modelled from the spec: the CIE 2000 hue-difference step.  If either
transformed chroma is zero the hue difference is zero; otherwise the signed
difference of the two hue angles is wrapped by subtracting 360 when it
exceeds 180 and adding 360 when it is below -180. -/
noncomputable def dh_prime (C1 C2 h1 h2 : ℝ) : ℝ :=
  if C1 * C2 = 0 then 0
  else if 180 < h2 - h1 then h2 - h1 - 360
  else if h2 - h1 < -180 then h2 - h1 + 360
  else h2 - h1

/-- Modelled from the spec: the CIE 2000 mean-hue step.  When either chroma
is zero the two hue angles are summed; otherwise the hues are averaged
across the circular seam, with the corrections of the standard near the
0 and 360 degree boundary so that the mean lies on the shorter arc. -/
noncomputable def h_bar_prime (C1 C2 h1 h2 : ℝ) : ℝ :=
  if C1 * C2 = 0 then h1 + h2
  else if |h1 - h2| ≤ 180 then (h1 + h2) / 2
  else if h1 + h2 < 360 then (h1 + h2 + 360) / 2
  else (h1 + h2 - 360) / 2

/-- Modelled from the spec: the CIE 2000 formula from the transformed
lightness, chroma and hue values of the two samples (steps 5 to 11 of the
specified algorithm), with parametric factors kL, kC and kH. -/
noncomputable def delta_E_CIE2000_LCh (kL kC kH L1 C1 h1 L2 C2 h2 : ℝ) : ℝ :=
  let dL := L2 - L1
  let dC := C2 - C1
  let dh := dh_prime C1 C2 h1 h2
  let dH := 2 * Real.sqrt (C1 * C2) * Real.sin (deg2rad (dh / 2))
  let Lbar := (L1 + L2) / 2
  let Cbar := (C1 + C2) / 2
  let hbar := h_bar_prime C1 C2 h1 h2
  let T := 1 - 0.17 * Real.cos (deg2rad (hbar - 30)) +
    0.24 * Real.cos (deg2rad (2 * hbar)) +
    0.32 * Real.cos (deg2rad (3 * hbar + 6)) -
    0.20 * Real.cos (deg2rad (4 * hbar - 63))
  let SL := 1 + 0.015 * (Lbar - 50) ^ 2 / Real.sqrt (20 + (Lbar - 50) ^ 2)
  let SC := 1 + 0.045 * Cbar
  let SH := 1 + 0.015 * Cbar * T
  let dTheta := 30 * Real.exp (-(((hbar - 275) / 25) ^ 2))
  let RC := Real.sqrt (Cbar ^ 7 / (Cbar ^ 7 + 25 ^ 7))
  let RT := -(Real.sin (deg2rad (2 * dTheta))) * RC
  Real.sqrt ((dL / (kL * SL)) ^ 2 + (dC / (kC * SC)) ^ 2 +
    (dH / (kH * SH)) ^ 2 + RT * (dC / (kC * SC)) * (dH / (kH * SH)))

/-- Modelled from the spec: the CIE 2000 chroma correction factor G computed
from the mean of the two raw chromas. -/
noncomputable def CIE2000_G (p q : Tri) : ℝ :=
  let Cbar := (C_star p + C_star q) / 2
  0.5 * (1 - Real.sqrt (Cbar ^ 7 / (Cbar ^ 7 + 25 ^ 7)))

/-- Transformed chroma of the first sample in the CIE 2000 formula. -/
noncomputable def CIE2000_C1p (p q : Tri) : ℝ :=
  Real.sqrt ((p.a * (1 + CIE2000_G p q)) ^ 2 + p.b ^ 2)

/-- Transformed chroma of the second sample in the CIE 2000 formula. -/
noncomputable def CIE2000_C2p (p q : Tri) : ℝ :=
  Real.sqrt ((q.a * (1 + CIE2000_G p q)) ^ 2 + q.b ^ 2)

/-- Transformed hue of the first sample in the CIE 2000 formula, in degrees
normalized to 0 (inclusive) to 360 (exclusive). -/
noncomputable def CIE2000_h1p (p q : Tri) : ℝ :=
  hueDeg p.b (p.a * (1 + CIE2000_G p q))

/-- Transformed hue of the second sample in the CIE 2000 formula. -/
noncomputable def CIE2000_h2p (p q : Tri) : ℝ :=
  hueDeg q.b (q.a * (1 + CIE2000_G p q))

/-- The hue difference used by the CIE 2000 formula on a pair of Lab
inputs, after the chroma transformation and hue extraction stages. -/
noncomputable def CIE2000_dh (p q : Tri) : ℝ :=
  dh_prime (CIE2000_C1p p q) (CIE2000_C2p p q) (CIE2000_h1p p q) (CIE2000_h2p p q)

/-- Modelled from the spec: the CIE 2000 formula on two Lab samples with
parametric factors, combining the transformation stages with the core
formula on lightness, chroma and hue. -/
noncomputable def delta_E_CIE2000_core (kL kC kH : ℝ) (p q : Tri) : ℝ :=
  delta_E_CIE2000_LCh kL kC kH
    p.L (CIE2000_C1p p q) (CIE2000_h1p p q)
    q.L (CIE2000_C2p p q) (CIE2000_h2p p q)

/-- Modelled from the spec: the CIE 2000 colour-difference formula entry
point; the textiles flag replaces the default lightness factor kL = 1 by
kL = 2 (the implementation delta_E_CIE2000 is not under the provided
sources). -/
noncomputable def delta_E_CIE2000 (s : DomainRangeScale) (Lab_1 Lab_2 : Tri)
    (textiles : Bool := false) : ℝ :=
  let p := to_domain_100 s Lab_1
  let q := to_domain_100 s Lab_2
  let kL : ℝ := if textiles then 2 else 1
  delta_E_CIE2000_core kL 1 1 p q

/-- Modelled from the spec: the CIE 1994 colour-difference formula, a
weighted Euclidean distance in lightness, chroma and hue with denominators
using only the first sample chroma; the textiles flag switches the
constants from the graphic-arts set (kL = 1, K1 = 0.045, K2 = 0.015) to
the textiles set (kL = 2, K1 = 0.048, K2 = 0.014). -/
noncomputable def delta_E_CIE1994 (s : DomainRangeScale) (Lab_1 Lab_2 : Tri)
    (textiles : Bool := false) : ℝ :=
  let p := to_domain_100 s Lab_1
  let q := to_domain_100 s Lab_2
  let kL : ℝ := if textiles then 2 else 1
  let K1 : ℝ := if textiles then 0.048 else 0.045
  let K2 : ℝ := if textiles then 0.014 else 0.015
  let C1 := C_star p
  let C2 := C_star q
  let sL : ℝ := 1
  let sC := 1 + K1 * C1
  let sH := 1 + K2 * C1
  let dL := p.L - q.L
  let dC := C1 - C2
  let dA := p.a - q.a
  let dB := p.b - q.b
  let dH := Real.sqrt (dA ^ 2 + dB ^ 2 - dC ^ 2)
  Real.sqrt ((dL / (kL * sL)) ^ 2 + (dC / sC) ^ 2 + (dH / sH) ^ 2)

/-- Modelled from the spec: the CMC colour-difference formula with
acceptability weights l and c; the lightness weight uses 0.511 below a
first-sample lightness of 16, the ellipse-orientation term T depends on
the hue sector of the first sample. -/
noncomputable def delta_E_CMC (s : DomainRangeScale) (Lab_1 Lab_2 : Tri)
    (l : ℝ := 2) (c : ℝ := 1) : ℝ :=
  let p := to_domain_100 s Lab_1
  let q := to_domain_100 s Lab_2
  let C1 := C_star p
  let C2 := C_star q
  let sL : ℝ :=
    if p.L < 16 then 0.511 else 0.040975 * p.L / (1 + 0.01765 * p.L)
  let sC := 0.0638 * C1 / (1 + 0.0131 * C1) + 0.638
  let h1 := hueDeg p.b p.a
  let T : ℝ :=
    if 335 ≤ h1 ∨ h1 ≤ 165 then 0.36 + |0.4 * Real.cos (deg2rad (h1 + 35))|
    else 0.56 + |0.2 * Real.cos (deg2rad (h1 + 168))|
  let F := Real.sqrt (C1 ^ 4 / (C1 ^ 4 + 1900))
  let sH := sC * (F * T + 1 - F)
  let dL := p.L - q.L
  let dC := C1 - C2
  let dA := p.a - q.a
  let dB := p.b - q.b
  let dH := Real.sqrt (dA ^ 2 + dB ^ 2 - dC ^ 2)
  Real.sqrt ((dL / (l * sL)) ^ 2 + (dC / (c * sC)) ^ 2 + (dH / sH) ^ 2)

/-- Modelled from the spec: the DIN99 colour-difference formula, a
logarithmic compression of lightness and chroma followed by the Euclidean
distance in the compressed space; the textiles flag rescales the kE and
kCH constants from (1, 1) to (2, 0.5). -/
noncomputable def delta_E_DIN99 (s : DomainRangeScale) (Lab_1 Lab_2 : Tri)
    (textiles : Bool := false) : ℝ :=
  let p := to_domain_100 s Lab_1
  let q := to_domain_100 s Lab_2
  let kE : ℝ := if textiles then 2 else 1
  let kCH : ℝ := if textiles then 0.5 else 1
  let e := fun (t : Tri) =>
    t.a * Real.cos (deg2rad 16) + t.b * Real.sin (deg2rad 16)
  let f := fun (t : Tri) =>
    0.7 * (-(t.a * Real.sin (deg2rad 16)) + t.b * Real.cos (deg2rad 16))
  let G := fun (t : Tri) => Real.sqrt (e t ^ 2 + f t ^ 2)
  let C99 := fun (t : Tri) =>
    Real.log (1 + 0.045 * G t) / (0.045 * kCH * kE)
  let h99 := fun (t : Tri) => atan2 (f t) (e t)
  let a99 := fun (t : Tri) => C99 t * Real.cos (h99 t)
  let b99 := fun (t : Tri) => C99 t * Real.sin (h99 t)
  let L99 := fun (t : Tri) => 105.509 * Real.log (1 + 0.0158 * t.L) / kE
  Real.sqrt ((L99 p - L99 q) ^ 2 + (a99 p - a99 q) ^ 2 + (b99 p - b99 q) ^ 2)

/-- Modelled from the spec: the ITP colour-difference formula, 720 times
the Euclidean distance on the ICtCp coordinates with the T component
halved. -/
noncomputable def delta_E_ITP (s : DomainRangeScale) (ICtCp_1 ICtCp_2 : Tri) : ℝ :=
  let p := to_domain_1 s ICtCp_1
  let q := to_domain_1 s ICtCp_2
  720 * Real.sqrt ((p.L - q.L) ^ 2 + (0.5 * (p.a - q.a)) ^ 2 + (p.b - q.b) ^ 2)

/-- The HyAB hybrid distance on native-domain Lab values: the absolute
lightness difference plus the Euclidean distance in the chroma plane. -/
noncomputable def hyab (p q : Tri) : ℝ :=
  |p.L - q.L| + Real.sqrt ((p.a - q.a) ^ 2 + (p.b - q.b) ^ 2)

/-- Modelled from the spec: the HyAB colour-difference formula, a hybrid of
an L1 distance in lightness and an L2 distance in the chroma plane. -/
noncomputable def delta_E_HyAB (s : DomainRangeScale) (Lab_1 Lab_2 : Tri) : ℝ :=
  hyab (to_domain_100 s Lab_1) (to_domain_100 s Lab_2)

/-- Modelled from the spec: the Huang 2015 power function applied to a
colour difference, with the documented default coefficient and exponent. -/
noncomputable def power_function_Huang2015 (d : ℝ) (a : ℝ := 1.43)
    (p : ℝ := 0.7) : ℝ :=
  a * d ^ p

/-- Modelled from the spec: the HyCH colour-difference formula, a blend of
the HyAB and CIE 1976 distance forms passed through the Huang 2015 power
function. -/
noncomputable def delta_E_HyCH (s : DomainRangeScale) (Lab_1 Lab_2 : Tri) : ℝ :=
  let p := to_domain_100 s Lab_1
  let q := to_domain_100 s Lab_2
  power_function_Huang2015 ((hyab p q + euclidean p q) / 2)

/-- Modelled from the spec: the CAM02-LCD colour-difference formula, the
Euclidean distance in the externally supplied uniform space. -/
noncomputable def delta_E_CAM02LCD (s : DomainRangeScale) (Jpapbp_1 Jpapbp_2 : Tri) : ℝ :=
  euclidean (to_domain_100 s Jpapbp_1) (to_domain_100 s Jpapbp_2)

/-- Modelled from the spec: the CAM02-SCD colour-difference formula. -/
noncomputable def delta_E_CAM02SCD (s : DomainRangeScale) (Jpapbp_1 Jpapbp_2 : Tri) : ℝ :=
  euclidean (to_domain_100 s Jpapbp_1) (to_domain_100 s Jpapbp_2)

/-- Modelled from the spec: the CAM02-UCS colour-difference formula. -/
noncomputable def delta_E_CAM02UCS (s : DomainRangeScale) (Jpapbp_1 Jpapbp_2 : Tri) : ℝ :=
  euclidean (to_domain_100 s Jpapbp_1) (to_domain_100 s Jpapbp_2)

/-- Modelled from the spec: the CAM16-LCD colour-difference formula. -/
noncomputable def delta_E_CAM16LCD (s : DomainRangeScale) (Jpapbp_1 Jpapbp_2 : Tri) : ℝ :=
  euclidean (to_domain_100 s Jpapbp_1) (to_domain_100 s Jpapbp_2)

/-- Modelled from the spec: the CAM16-SCD colour-difference formula. -/
noncomputable def delta_E_CAM16SCD (s : DomainRangeScale) (Jpapbp_1 Jpapbp_2 : Tri) : ℝ :=
  euclidean (to_domain_100 s Jpapbp_1) (to_domain_100 s Jpapbp_2)

/-- Modelled from the spec: the CAM16-UCS colour-difference formula. -/
noncomputable def delta_E_CAM16UCS (s : DomainRangeScale) (Jpapbp_1 Jpapbp_2 : Tri) : ℝ :=
  euclidean (to_domain_100 s Jpapbp_1) (to_domain_100 s Jpapbp_2)

/-- Modelled from the spec: lowercase normalization of a method name, the
basis of the case-insensitive matching of the registry. -/
def strLower (s : String) : String :=
  String.mk (s.data.map Char.toLower)

/-- A keyword-option value passed to the dispatcher: a boolean flag such as
textiles, or a numeric weight such as l and c. -/
inductive KwVal where
  | bool : Bool → KwVal
  | num : ℝ → KwVal

/-- Caller-supplied keyword options, as a list of name and value pairs. -/
abbrev Kwargs := List (String × KwVal)

/-- Reads a boolean keyword option, falling back to a default. -/
def getBool (kw : Kwargs) (k : String) (dflt : Bool) : Bool :=
  match kw.find? (fun e => e.1 == k) with
  | some (_, .bool v) => v
  | _ => dflt

/-- Reads a numeric keyword option, falling back to a default. -/
noncomputable def getNum (kw : Kwargs) (k : String) (dflt : ℝ) : ℝ :=
  match kw.find? (fun e => e.1 == k) with
  | some (_, .num v) => v
  | _ => dflt

/-- A registered colour-difference formula: the set of keyword options its
signature accepts, and its evaluation on two coordinates under the active
domain-range scale with the filtered options. -/
structure Formula where
  accepts : List String
  run : DomainRangeScale → Tri → Tri → Kwargs → ℝ

/-- The CIE 1976 formula as a registry entry; it accepts no options. -/
noncomputable def formula_CIE1976 : Formula :=
  ⟨[], fun s a b _ => delta_E_CIE1976 s a b⟩

/-- The CIE 1994 formula as a registry entry; it accepts textiles. -/
noncomputable def formula_CIE1994 : Formula :=
  ⟨["textiles"], fun s a b kw => delta_E_CIE1994 s a b (getBool kw "textiles" false)⟩

/-- The CIE 2000 formula as a registry entry; it accepts textiles. -/
noncomputable def formula_CIE2000 : Formula :=
  ⟨["textiles"], fun s a b kw => delta_E_CIE2000 s a b (getBool kw "textiles" false)⟩

/-- The CMC formula as a registry entry; it accepts the acceptability
weights l and c. -/
noncomputable def formula_CMC : Formula :=
  ⟨["l", "c"], fun s a b kw => delta_E_CMC s a b (getNum kw "l" 2) (getNum kw "c" 1)⟩

/-- The ITP formula as a registry entry; it accepts no options. -/
noncomputable def formula_ITP : Formula :=
  ⟨[], fun s a b _ => delta_E_ITP s a b⟩

/-- The CAM02-LCD formula as a registry entry. -/
noncomputable def formula_CAM02LCD : Formula :=
  ⟨[], fun s a b _ => delta_E_CAM02LCD s a b⟩

/-- The CAM02-SCD formula as a registry entry. -/
noncomputable def formula_CAM02SCD : Formula :=
  ⟨[], fun s a b _ => delta_E_CAM02SCD s a b⟩

/-- The CAM02-UCS formula as a registry entry. -/
noncomputable def formula_CAM02UCS : Formula :=
  ⟨[], fun s a b _ => delta_E_CAM02UCS s a b⟩

/-- The CAM16-LCD formula as a registry entry. -/
noncomputable def formula_CAM16LCD : Formula :=
  ⟨[], fun s a b _ => delta_E_CAM16LCD s a b⟩

/-- The CAM16-SCD formula as a registry entry. -/
noncomputable def formula_CAM16SCD : Formula :=
  ⟨[], fun s a b _ => delta_E_CAM16SCD s a b⟩

/-- The CAM16-UCS formula as a registry entry. -/
noncomputable def formula_CAM16UCS : Formula :=
  ⟨[], fun s a b _ => delta_E_CAM16UCS s a b⟩

/-- The DIN99 formula as a registry entry; it accepts textiles. -/
noncomputable def formula_DIN99 : Formula :=
  ⟨["textiles"], fun s a b kw => delta_E_DIN99 s a b (getBool kw "textiles" false)⟩

/-- The HyAB formula as a registry entry; it accepts no options. -/
noncomputable def formula_HyAB : Formula :=
  ⟨[], fun s a b _ => delta_E_HyAB s a b⟩

/-- The HyCH formula as a registry entry; it accepts no options. -/
noncomputable def formula_HyCH : Formula :=
  ⟨[], fun s a b _ => delta_E_HyCH s a b⟩

/-- The supported delta E computation methods, translated from the source
registry: the fourteen canonical entries of the mapping literal followed by
the three lowercase alias entries assigned after construction, each alias
bound to the same formula object as its canonical entry.  Insertion order
is preserved as in the source mapping. -/
noncomputable def DELTA_E_METHODS : List (String × Formula) :=
  [("CIE 1976", formula_CIE1976),
   ("CIE 1994", formula_CIE1994),
   ("CIE 2000", formula_CIE2000),
   ("CMC", formula_CMC),
   ("ITP", formula_ITP),
   ("CAM02-LCD", formula_CAM02LCD),
   ("CAM02-SCD", formula_CAM02SCD),
   ("CAM02-UCS", formula_CAM02UCS),
   ("CAM16-LCD", formula_CAM16LCD),
   ("CAM16-SCD", formula_CAM16SCD),
   ("CAM16-UCS", formula_CAM16UCS),
   ("DIN99", formula_DIN99),
   ("HyAB", formula_HyAB),
   ("HyCH", formula_HyCH),
   ("cie1976", formula_CIE1976),
   ("cie1994", formula_CIE1994),
   ("cie2000", formula_CIE2000)]

/-- The key tuple of the registry passed to method validation, translated
from the source expression tuple of DELTA_E_METHODS. -/
noncomputable def DELTA_E_METHOD_NAMES : List String :=
  DELTA_E_METHODS.map Prod.fst

/-- The failure modes of the dispatch path: the unknown-method error that
carries the offending name and the valid names, and the impossible lookup
failure after a successful validation. -/
inductive DeltaEError where
  | unknownMethod : String → List String → DeltaEError
  | methodNotFound : String → DeltaEError

/-- Modelled from the spec: method validation, which matches the requested
name case-insensitively against the valid names, returns the lowercased
name on success and fails with the unknown-method error listing the valid
names otherwise (the implementation validate_method is not under the
provided sources). -/
noncomputable def validate_method (method : String) (valid : List String) :
    Except DeltaEError String :=
  if (valid.map strLower).contains (strLower method) then .ok (strLower method)
  else .error (.unknownMethod method valid)

/-- Modelled from the spec: keyword filtering, which keeps exactly the
caller-supplied options whose names the resolved formula accepts and
silently drops the rest (the implementation filter_kwargs is not under the
provided sources). -/
def filter_kwargs (f : Formula) (kw : Kwargs) : Kwargs :=
  kw.filter (fun e => f.accepts.contains e.1)

/-- Modelled from the spec: the case-insensitive registry lookup of the
canonical mapping, matching the validated lowercase name against the
lowercased keys in order. -/
noncomputable def registry_lookup (m : String) : Option (String × Formula) :=
  DELTA_E_METHODS.find? (fun e => strLower e.1 == m)

/-- The delta_E dispatcher, translated from the source: validate the
requested method against the registry key tuple, look the method up in the
registry, and invoke the formula on the two coordinates with the filtered
keyword options, returning its result unchanged.  The process-wide
domain-range scale is passed explicitly as the first argument. -/
noncomputable def delta_E (s : DomainRangeScale) (a b : Tri)
    (method : String := "CIE 2000") (kw : Kwargs := []) : Except DeltaEError ℝ :=
  match validate_method method DELTA_E_METHOD_NAMES with
  | .error e => .error e
  | .ok m =>
    match registry_lookup m with
    | some (_, f) => .ok (f.run s a b (filter_kwargs f kw))
    | none => .error (.methodNotFound m)

/-- Resolution of a method name to its formula through the same validation
and lookup path as the dispatcher. -/
noncomputable def resolve_method (method : String) : Option Formula :=
  match validate_method method DELTA_E_METHOD_NAMES with
  | .error _ => none
  | .ok m => (registry_lookup m).map Prod.snd

-- dispatch-path helper lemmas

theorem find_lower_isSome (l : List (String × Formula)) (m : String)
    (h : ((l.map Prod.fst).map strLower).contains m = true) :
    (l.find? (fun e => strLower e.1 == m)).isSome := by
  induction l with
  | nil => simp at h
  | cons hd tl ih =>
    by_cases hbeq : strLower hd.1 = m
    · simp [List.find?_cons, hbeq]
    · have h1 : (strLower hd.1 == m) = false := beq_eq_false_iff_ne.mpr hbeq
      have h2 : (m == strLower hd.1) = false :=
        beq_eq_false_iff_ne.mpr (Ne.symm hbeq)
      rw [List.find?_cons, h1]
      dsimp only
      apply ih
      simpa [List.map_cons, List.contains_cons, h2] using h

theorem delta_E_run_of_resolve {m : String} {f : Formula}
    (h : resolve_method m = some f) (s : DomainRangeScale) (a b : Tri)
    (kw : Kwargs) :
    delta_E s a b m kw = .ok (f.run s a b (filter_kwargs f kw)) := by
  unfold resolve_method at h
  unfold delta_E
  cases hv : validate_method m DELTA_E_METHOD_NAMES with
  | error e => rw [hv] at h; exact Option.noConfusion h
  | ok m' =>
    rw [hv] at h
    dsimp only at h ⊢
    cases hl : registry_lookup m' with
    | none => rw [hl] at h; exact Option.noConfusion h
    | some kf =>
      obtain ⟨k, f'⟩ := kf
      rw [hl] at h
      dsimp only at h ⊢
      simp only [Option.map_some'] at h
      rw [Option.some.injEq] at h
      subst h
      rfl

/-- C3.  For every method string that matches no registered canonical name
or alias, delta_E fails with the designated unknown-method error carrying
the offending name and the list of valid names; and for every method
string that does match, delta_E never fails in the dispatch path: the
unknown-method error is the only validation failure mode. -/
theorem delta_E_unknown_method :
    (∀ (s : DomainRangeScale) (a b : Tri) (kw : Kwargs) (m : String),
      (DELTA_E_METHOD_NAMES.map strLower).contains (strLower m) = false →
      delta_E s a b m kw =
        .error (.unknownMethod m DELTA_E_METHOD_NAMES)) ∧
    (∀ (s : DomainRangeScale) (a b : Tri) (kw : Kwargs) (m : String),
      (DELTA_E_METHOD_NAMES.map strLower).contains (strLower m) = true →
      ∃ r : ℝ, delta_E s a b m kw = .ok r) := by
  constructor
  · intro s a b kw m h
    unfold delta_E validate_method
    rw [h]
    simp
  · intro s a b kw m h
    have hs : (DELTA_E_METHODS.find?
        (fun e => strLower e.1 == strLower m)).isSome :=
      find_lower_isSome DELTA_E_METHODS (strLower m) h
    obtain ⟨⟨k, f⟩, hf⟩ := Option.isSome_iff_exists.mp hs
    refine ⟨f.run s a b (filter_kwargs f kw), ?_⟩
    unfold delta_E validate_method registry_lookup
    rw [h]
    simp [hf]

/-- Witness for C3 at concrete inputs: the string not-a-method fails with
the designated error, and the string CIE 1976 succeeds. -/
theorem delta_E_unknown_method_witness :
    delta_E .reference ⟨0, 0, 0⟩ ⟨0, 0, 0⟩ "not-a-method" [] =
      .error (.unknownMethod "not-a-method" DELTA_E_METHOD_NAMES) ∧
    ∃ r : ℝ, delta_E .reference ⟨0, 0, 0⟩ ⟨0, 0, 0⟩ "CIE 1976" [] = .ok r :=
  ⟨delta_E_unknown_method.1 _ _ _ _ _ (by rfl),
   delta_E_unknown_method.2 _ _ _ _ _ (by rfl)⟩

/-- C4.  Dispatch transparency: whenever a method name resolves to a
formula, delta_E returns exactly the formula evaluated on the two inputs
with the filtered keyword options, unchanged, as a pure function of the
arguments and the domain-range scale. -/
theorem delta_E_dispatch_transparency :
    ∀ (s : DomainRangeScale) (a b : Tri) (m : String) (f : Formula)
      (kw : Kwargs), resolve_method m = some f →
      delta_E s a b m kw = .ok (f.run s a b (filter_kwargs f kw)) :=
  fun s a b _ _ kw h => delta_E_run_of_resolve h s a b kw

/-- Witness for C4 at a concrete method and inputs. -/
theorem delta_E_dispatch_transparency_witness :
    delta_E .reference ⟨1, 2, 3⟩ ⟨4, 5, 6⟩ "CIE 1976" [] =
      .ok (formula_CIE1976.run .reference ⟨1, 2, 3⟩ ⟨4, 5, 6⟩
        (filter_kwargs formula_CIE1976 [])) :=
  delta_E_dispatch_transparency .reference ⟨1, 2, 3⟩ ⟨4, 5, 6⟩
    "CIE 1976" formula_CIE1976 [] rfl

/-- C5.  Silent keyword filtering: for every method that resolves, adding
a keyword option whose name the resolved formula does not accept never
raises and leaves the result identical to the call without that option. -/
theorem delta_E_ignores_unknown_kwargs :
    ∀ (s : DomainRangeScale) (a b : Tri) (m : String) (f : Formula)
      (k : String) (v : KwVal) (kw : Kwargs),
      resolve_method m = some f → f.accepts.contains k = false →
      delta_E s a b m ((k, v) :: kw) = delta_E s a b m kw := by
  intro s a b m f k v kw h hk
  rw [delta_E_run_of_resolve h, delta_E_run_of_resolve h]
  have hfilter : filter_kwargs f ((k, v) :: kw) = filter_kwargs f kw := by
    unfold filter_kwargs
    rw [List.filter_cons]
    dsimp only
    rw [hk]
    simp
  rw [hfilter]

/-- Witness for C5: an unrecognized bogus option passed to the CIE 2000
method leaves the result unchanged. -/
theorem delta_E_ignores_unknown_kwargs_witness :
    delta_E .reference ⟨1, 2, 3⟩ ⟨4, 5, 6⟩ "CIE 2000"
        [("bogus", KwVal.bool true)] =
      delta_E .reference ⟨1, 2, 3⟩ ⟨4, 5, 6⟩ "CIE 2000" [] :=
  delta_E_ignores_unknown_kwargs .reference ⟨1, 2, 3⟩ ⟨4, 5, 6⟩
    "CIE 2000" formula_CIE2000 "bogus" (KwVal.bool true) [] rfl rfl

/-- C6.  Alias resolution: the lowercase alias cie2000 and the canonical
name CIE 2000 give identical results for all inputs, and the alias
cie1976 resolves to the same CIE 1976 formula as the canonical name,
case-insensitively. -/
theorem delta_E_alias_resolution :
    (∀ (s : DomainRangeScale) (a b : Tri) (kw : Kwargs),
      delta_E s a b "cie2000" kw = delta_E s a b "CIE 2000" kw) ∧
    resolve_method "cie1976" = some formula_CIE1976 ∧
    resolve_method "CIE 1976" = some formula_CIE1976 :=
  ⟨fun _ _ _ _ => rfl, rfl, rfl⟩

/-- C10.  The registry key tuple passed to method validation consists of
the fourteen canonical names followed by the three lowercase aliases, so
the unknown-method error enumerates all seventeen names, aliases
included. -/
theorem delta_E_error_lists_aliases :
    DELTA_E_METHOD_NAMES =
      ["CIE 1976", "CIE 1994", "CIE 2000", "CMC", "ITP", "CAM02-LCD",
       "CAM02-SCD", "CAM02-UCS", "CAM16-LCD", "CAM16-SCD", "CAM16-UCS",
       "DIN99", "HyAB", "HyCH", "cie1976", "cie1994", "cie2000"] ∧
    ∀ (s : DomainRangeScale) (a b : Tri) (kw : Kwargs),
      delta_E s a b "not-a-method" kw =
        .error (.unknownMethod "not-a-method"
          ["CIE 1976", "CIE 1994", "CIE 2000", "CMC", "ITP", "CAM02-LCD",
           "CAM02-SCD", "CAM02-UCS", "CAM16-LCD", "CAM16-SCD", "CAM16-UCS",
           "DIN99", "HyAB", "HyCH", "cie1976", "cie1994", "cie2000"]) :=
  ⟨rfl, fun _ _ _ _ => rfl⟩

-- identity lemmas for the formulas

theorem euclidean_self (p : Tri) : euclidean p p = 0 := by
  simp [euclidean]

theorem hyab_self (p : Tri) : hyab p p = 0 := by
  simp [hyab]

theorem dh_prime_self (C C' h : ℝ) : dh_prime C C' h h = 0 := by
  unfold dh_prime
  split_ifs <;> first | rfl | linarith

theorem delta_E_CIE1976_self (s : DomainRangeScale) (t : Tri) :
    delta_E_CIE1976 s t t = 0 := by
  simp [delta_E_CIE1976, euclidean_self]

theorem delta_E_CIE1994_self (s : DomainRangeScale) (t : Tri) (tex : Bool) :
    delta_E_CIE1994 s t t tex = 0 := by
  simp [delta_E_CIE1994]

theorem delta_E_CIE2000_LCh_self (kL kC kH L C h : ℝ) :
    delta_E_CIE2000_LCh kL kC kH L C h L C h = 0 := by
  simp [delta_E_CIE2000_LCh, dh_prime_self, deg2rad]

theorem delta_E_CIE2000_core_self (kL kC kH : ℝ) (p : Tri) :
    delta_E_CIE2000_core kL kC kH p p = 0 :=
  delta_E_CIE2000_LCh_self kL kC kH p.L (CIE2000_C1p p p) (CIE2000_h1p p p)

theorem delta_E_CIE2000_self (s : DomainRangeScale) (t : Tri) (tex : Bool) :
    delta_E_CIE2000 s t t tex = 0 :=
  delta_E_CIE2000_core_self _ 1 1 (to_domain_100 s t)

theorem delta_E_CMC_self (s : DomainRangeScale) (t : Tri) (l c : ℝ) :
    delta_E_CMC s t t l c = 0 := by
  simp [delta_E_CMC]

theorem delta_E_DIN99_self (s : DomainRangeScale) (t : Tri) (tex : Bool) :
    delta_E_DIN99 s t t tex = 0 := by
  simp [delta_E_DIN99]

theorem delta_E_ITP_self (s : DomainRangeScale) (t : Tri) :
    delta_E_ITP s t t = 0 := by
  simp [delta_E_ITP]

theorem delta_E_HyAB_self (s : DomainRangeScale) (t : Tri) :
    delta_E_HyAB s t t = 0 := by
  simp [delta_E_HyAB, hyab_self]

theorem delta_E_HyCH_self (s : DomainRangeScale) (t : Tri) :
    delta_E_HyCH s t t = 0 := by
  simp only [delta_E_HyCH, power_function_Huang2015, hyab_self, euclidean_self]
  rw [show ((0:ℝ) + 0) / 2 = 0 by norm_num]
  rw [Real.zero_rpow (by norm_num : (0.7:ℝ) ≠ 0)]
  ring

theorem delta_E_CAM02LCD_self (s : DomainRangeScale) (t : Tri) :
    delta_E_CAM02LCD s t t = 0 := by
  simp [delta_E_CAM02LCD, euclidean_self]

theorem delta_E_CAM02SCD_self (s : DomainRangeScale) (t : Tri) :
    delta_E_CAM02SCD s t t = 0 := by
  simp [delta_E_CAM02SCD, euclidean_self]

theorem delta_E_CAM02UCS_self (s : DomainRangeScale) (t : Tri) :
    delta_E_CAM02UCS s t t = 0 := by
  simp [delta_E_CAM02UCS, euclidean_self]

theorem delta_E_CAM16LCD_self (s : DomainRangeScale) (t : Tri) :
    delta_E_CAM16LCD s t t = 0 := by
  simp [delta_E_CAM16LCD, euclidean_self]

theorem delta_E_CAM16SCD_self (s : DomainRangeScale) (t : Tri) :
    delta_E_CAM16SCD s t t = 0 := by
  simp [delta_E_CAM16SCD, euclidean_self]

theorem delta_E_CAM16UCS_self (s : DomainRangeScale) (t : Tri) :
    delta_E_CAM16UCS s t t = 0 := by
  simp [delta_E_CAM16UCS, euclidean_self]

/-- C7.  Identity: for every registered method name, alias entries
included, and every coordinate, the dispatched colour difference of a
coordinate with itself is zero, under every domain-range scale. -/
theorem delta_E_identity :
    ∀ (s : DomainRangeScale) (m : String) (x : Tri),
      m ∈ DELTA_E_METHOD_NAMES → delta_E s x x m [] = .ok 0 := by
  intro s m x hm
  simp only [DELTA_E_METHOD_NAMES, DELTA_E_METHODS, List.map_cons,
    List.map_nil, List.mem_cons, List.not_mem_nil, or_false] at hm
  rcases hm with h | h | h | h | h | h | h | h | h | h | h | h | h | h | h | h | h <;>
    subst h
  · exact congrArg Except.ok (delta_E_CIE1976_self s x)
  · exact congrArg Except.ok (delta_E_CIE1994_self s x false)
  · exact congrArg Except.ok (delta_E_CIE2000_self s x false)
  · exact congrArg Except.ok (delta_E_CMC_self s x 2 1)
  · exact congrArg Except.ok (delta_E_ITP_self s x)
  · exact congrArg Except.ok (delta_E_CAM02LCD_self s x)
  · exact congrArg Except.ok (delta_E_CAM02SCD_self s x)
  · exact congrArg Except.ok (delta_E_CAM02UCS_self s x)
  · exact congrArg Except.ok (delta_E_CAM16LCD_self s x)
  · exact congrArg Except.ok (delta_E_CAM16SCD_self s x)
  · exact congrArg Except.ok (delta_E_CAM16UCS_self s x)
  · exact congrArg Except.ok (delta_E_DIN99_self s x false)
  · exact congrArg Except.ok (delta_E_HyAB_self s x)
  · exact congrArg Except.ok (delta_E_HyCH_self s x)
  · exact congrArg Except.ok (delta_E_CIE1976_self s x)
  · exact congrArg Except.ok (delta_E_CIE1994_self s x false)
  · exact congrArg Except.ok (delta_E_CIE2000_self s x false)

/-- Witness for C7 at a concrete method and coordinate. -/
theorem delta_E_identity_witness :
    delta_E .reference ⟨50, 10, 10⟩ ⟨50, 10, 10⟩ "CIE 2000" [] = .ok 0 :=
  delta_E_identity .reference "CIE 2000" ⟨50, 10, 10⟩ (by
    simp [DELTA_E_METHOD_NAMES, DELTA_E_METHODS])

-- evaluation helpers for square roots, chromas and hue angles

theorem rsqrt_of_sq {x y : ℝ} (hy : 0 ≤ y) (h : x = y ^ 2) :
    Real.sqrt x = y := by
  rw [h, Real.sqrt_sq hy]

theorem C_star_345 : C_star ⟨0, 3, 4⟩ = 5 := by
  unfold C_star
  exact rsqrt_of_sq (by norm_num) (by norm_num)

theorem C_star_zero : C_star ⟨0, 0, 0⟩ = 0 := by
  unfold C_star
  norm_num

theorem C_star_050 : C_star ⟨0, 5, 0⟩ = 5 := by
  unfold C_star
  exact rsqrt_of_sq (by norm_num) (by norm_num)

theorem atan2_pos_y (y : ℝ) (hy : 0 < y) : atan2 y 0 = π / 2 := by
  unfold atan2
  rw [if_neg (lt_irrefl 0), if_neg (lt_irrefl 0), if_pos hy]

theorem atan2_neg_y (y : ℝ) (hy : y < 0) : atan2 y 0 = -(π / 2) := by
  unfold atan2
  rw [if_neg (lt_irrefl 0), if_neg (lt_irrefl 0),
    if_neg (not_lt_of_gt hy), if_pos hy]

theorem rad2deg_pi_div_two : rad2deg (π / 2) = 90 := by
  unfold rad2deg
  have hpi := Real.pi_ne_zero
  field_simp
  ring

theorem hueDeg_one_zero : hueDeg 1 0 = 90 := by
  unfold hueDeg
  rw [atan2_pos_y 1 one_pos, rad2deg_pi_div_two]
  norm_num

theorem hueDeg_negone_zero : hueDeg (-1) 0 = 270 := by
  unfold hueDeg
  rw [atan2_neg_y (-1) (by norm_num)]
  have h : rad2deg (-(π / 2)) = -90 := by
    unfold rad2deg
    have hpi := Real.pi_ne_zero
    field_simp
    ring
  rw [h]
  norm_num

-- evaluation of the CIE 2000 stages at the seam-boundary counterexample pair

theorem CIE2000_C1p_cex : CIE2000_C1p ⟨50, 0, -1⟩ ⟨50, 0, 1⟩ = 1 := by
  unfold CIE2000_C1p
  norm_num

theorem CIE2000_C2p_cex : CIE2000_C2p ⟨50, 0, -1⟩ ⟨50, 0, 1⟩ = 1 := by
  unfold CIE2000_C2p
  norm_num

theorem CIE2000_h1p_cex : CIE2000_h1p ⟨50, 0, -1⟩ ⟨50, 0, 1⟩ = 270 := by
  unfold CIE2000_h1p
  norm_num [hueDeg_negone_zero]

theorem CIE2000_h2p_cex : CIE2000_h2p ⟨50, 0, -1⟩ ⟨50, 0, 1⟩ = 90 := by
  unfold CIE2000_h2p
  norm_num [hueDeg_one_zero]

theorem cie2000_dh_cex_eval : CIE2000_dh ⟨50, 0, -1⟩ ⟨50, 0, 1⟩ = -180 := by
  unfold CIE2000_dh
  rw [CIE2000_C1p_cex, CIE2000_C2p_cex, CIE2000_h1p_cex, CIE2000_h2p_cex]
  unfold dh_prime
  norm_num

-- evaluation of the hue-difference and mean-hue steps at the seam pair

theorem dh_prime_5_355 {C1 C2 : ℝ} (h : C1 * C2 ≠ 0) :
    dh_prime C1 C2 5 355 = -10 := by
  unfold dh_prime
  rw [if_neg h, if_pos (by norm_num : (180:ℝ) < 355 - 5)]
  norm_num

theorem dh_prime_5_neg5 {C1 C2 : ℝ} (h : C1 * C2 ≠ 0) :
    dh_prime C1 C2 5 (-5) = -10 := by
  unfold dh_prime
  rw [if_neg h, if_neg (by norm_num : ¬(180:ℝ) < -5 - 5),
    if_neg (by norm_num : ¬(-5:ℝ) - 5 < -180)]
  norm_num

theorem h_bar_prime_5_355 {C1 C2 : ℝ} (h : C1 * C2 ≠ 0) :
    h_bar_prime C1 C2 5 355 = 0 := by
  unfold h_bar_prime
  rw [if_neg h, if_neg (by norm_num : ¬|(5:ℝ) - 355| ≤ 180),
    if_neg (by norm_num : ¬(5:ℝ) + 355 < 360)]
  norm_num

theorem h_bar_prime_5_neg5 {C1 C2 : ℝ} (h : C1 * C2 ≠ 0) :
    h_bar_prime C1 C2 5 (-5) = 0 := by
  unfold h_bar_prime
  rw [if_neg h, if_pos (by norm_num : |(5:ℝ) - -5| ≤ 180)]
  norm_num

/-- C1 counterexample.  At the Lab pair (50, 0, -1) and (50, 0, 1) the
transformed hues are 270 and 90 degrees, the raw difference is exactly
-180, neither wrapping branch fires, and the hue difference used by the
CIE 2000 formula is -180, which lies outside the claimed half-open
interval from -180 (exclusive) to 180 (inclusive). -/
theorem cie2000_dh_seam_boundary_cex :
    CIE2000_dh ⟨50, 0, -1⟩ ⟨50, 0, 1⟩ = -180 ∧
    CIE2000_dh ⟨50, 0, -1⟩ ⟨50, 0, 1⟩ ∉ Set.Ioc (-180 : ℝ) 180 := by
  refine ⟨cie2000_dh_cex_eval, ?_⟩
  rw [cie2000_dh_cex_eval]
  simp

/-- C1 (amended).  The CIE 2000 hue difference is zero when either
transformed chroma is zero; otherwise, for hue angles in the normalized
interval from 0 to 360, it is the signed difference of the second and
first hue wrapped into the closed interval from -180 to 180 by subtracting
360 when the raw difference exceeds 180 and adding 360 when it is below
-180 (the boundary value -180 itself is attained, so the interval is
closed, not half open); and consequently the full formula value at the
seam-straddling hue pair of 5 and 355 degrees coincides exactly with its
value at the equivalent ten-degree separation of 5 and -5 degrees, not
with the 350-degree long way around. -/
theorem cie2000_delta_h_wrap :
    (∀ C1 C2 h1 h2 : ℝ, C1 * C2 = 0 → dh_prime C1 C2 h1 h2 = 0) ∧
    (∀ C1 C2 h1 h2 : ℝ, C1 * C2 ≠ 0 →
      0 ≤ h1 → h1 < 360 → 0 ≤ h2 → h2 < 360 →
      dh_prime C1 C2 h1 h2 ∈ Set.Icc (-180 : ℝ) 180 ∧
      ∃ k : ℤ, dh_prime C1 C2 h1 h2 = h2 - h1 + 360 * k) ∧
    (∀ kL kC kH L1 C1 L2 C2 : ℝ, C1 ≠ 0 → C2 ≠ 0 →
      delta_E_CIE2000_LCh kL kC kH L1 C1 5 L2 C2 355 =
      delta_E_CIE2000_LCh kL kC kH L1 C1 5 L2 C2 (-5)) := by
  refine ⟨?_, ?_, ?_⟩
  · intro C1 C2 h1 h2 hc
    unfold dh_prime
    rw [if_pos hc]
  · intro C1 C2 h1 h2 hc h1a h1b h2a h2b
    unfold dh_prime
    rw [if_neg hc]
    split_ifs with hgt hlt
    · exact ⟨⟨by linarith, by linarith⟩, ⟨-1, by push_cast; ring⟩⟩
    · exact ⟨⟨by linarith, by linarith⟩, ⟨1, by push_cast; ring⟩⟩
    · exact ⟨⟨by linarith, by linarith⟩, ⟨0, by push_cast; ring⟩⟩
  · intro kL kC kH L1 C1 L2 C2 hC1 hC2
    have h : C1 * C2 ≠ 0 := mul_ne_zero hC1 hC2
    simp only [delta_E_CIE2000_LCh]
    rw [dh_prime_5_355 h, dh_prime_5_neg5 h, h_bar_prime_5_355 h,
      h_bar_prime_5_neg5 h]

/-- Witness for C1 at concrete chromas, hues and weights. -/
theorem cie2000_delta_h_wrap_witness :
    dh_prime 1 0 10 20 = 0 ∧
    (dh_prime 1 1 10 20 ∈ Set.Icc (-180 : ℝ) 180 ∧
      ∃ k : ℤ, dh_prime 1 1 10 20 = 20 - 10 + 360 * k) ∧
    delta_E_CIE2000_LCh 1 1 1 50 2 5 60 3 355 =
      delta_E_CIE2000_LCh 1 1 1 50 2 5 60 3 (-5) :=
  ⟨cie2000_delta_h_wrap.1 1 0 10 20 (by norm_num),
   cie2000_delta_h_wrap.2.1 1 1 10 20 (by norm_num) (by norm_num)
     (by norm_num) (by norm_num) (by norm_num),
   cie2000_delta_h_wrap.2.2 1 1 1 50 2 60 3 (by norm_num) (by norm_num)⟩

-- scale-invariance lemmas for the five Lab-domain formulas

theorem delta_E_CIE1976_one_scale (a b : Tri) :
    delta_E_CIE1976 .one (Tri.scale 0.01 a) (Tri.scale 0.01 b) =
    delta_E_CIE1976 .reference a b := by
  simp only [delta_E_CIE1976, to_domain_100_one_scale, to_domain_100_reference]

theorem delta_E_CIE1994_one_scale (a b : Tri) (tex : Bool) :
    delta_E_CIE1994 .one (Tri.scale 0.01 a) (Tri.scale 0.01 b) tex =
    delta_E_CIE1994 .reference a b tex := by
  simp only [delta_E_CIE1994, to_domain_100_one_scale, to_domain_100_reference]

theorem delta_E_CIE2000_one_scale (a b : Tri) (tex : Bool) :
    delta_E_CIE2000 .one (Tri.scale 0.01 a) (Tri.scale 0.01 b) tex =
    delta_E_CIE2000 .reference a b tex := by
  simp only [delta_E_CIE2000, to_domain_100_one_scale, to_domain_100_reference]

theorem delta_E_CMC_one_scale (a b : Tri) (l c : ℝ) :
    delta_E_CMC .one (Tri.scale 0.01 a) (Tri.scale 0.01 b) l c =
    delta_E_CMC .reference a b l c := by
  simp only [delta_E_CMC, to_domain_100_one_scale, to_domain_100_reference]

theorem delta_E_DIN99_one_scale (a b : Tri) (tex : Bool) :
    delta_E_DIN99 .one (Tri.scale 0.01 a) (Tri.scale 0.01 b) tex =
    delta_E_DIN99 .reference a b tex := by
  simp only [delta_E_DIN99, to_domain_100_one_scale, to_domain_100_reference]

/-- C2.  Domain-range scale invariance: for each of the methods CIE 1976,
CIE 1994, CIE 2000, CMC and DIN99, evaluating delta_E on the inputs
multiplied by 0.01 under scale 1, and on the unscaled inputs under scale
100, both give exactly the result under scale reference (exact equality,
hence agreement within any floating tolerance). -/
theorem delta_E_domain_range_scale :
    ∀ m : String,
      m ∈ (["CIE 1976", "CIE 1994", "CIE 2000", "CMC", "DIN99"] : List String) →
      ∀ (a b : Tri) (kw : Kwargs),
        delta_E .one (Tri.scale 0.01 a) (Tri.scale 0.01 b) m kw =
          delta_E .reference a b m kw ∧
        delta_E .hundred a b m kw = delta_E .reference a b m kw := by
  intro m hm a b kw
  simp only [List.mem_cons, List.not_mem_nil, or_false] at hm
  rcases hm with h | h | h | h | h <;> subst h
  · exact ⟨congrArg Except.ok (delta_E_CIE1976_one_scale a b), rfl⟩
  · exact ⟨congrArg Except.ok (delta_E_CIE1994_one_scale a b _), rfl⟩
  · exact ⟨congrArg Except.ok (delta_E_CIE2000_one_scale a b _), rfl⟩
  · exact ⟨congrArg Except.ok (delta_E_CMC_one_scale a b _ _), rfl⟩
  · exact ⟨congrArg Except.ok (delta_E_DIN99_one_scale a b _), rfl⟩

/-- Witness for C2 at the CIE 2000 method and concrete inputs. -/
theorem delta_E_domain_range_scale_witness :
    delta_E .one (Tri.scale 0.01 ⟨50, 1, 1⟩) (Tri.scale 0.01 ⟨60, 2, 2⟩)
        "CIE 2000" [] =
      delta_E .reference ⟨50, 1, 1⟩ ⟨60, 2, 2⟩ "CIE 2000" [] ∧
    delta_E .hundred ⟨50, 1, 1⟩ ⟨60, 2, 2⟩ "CIE 2000" [] =
      delta_E .reference ⟨50, 1, 1⟩ ⟨60, 2, 2⟩ "CIE 2000" [] :=
  delta_E_domain_range_scale "CIE 2000" (by simp) ⟨50, 1, 1⟩ ⟨60, 2, 2⟩ []

-- symmetry and asymmetry lemmas for C8

theorem euclidean_comm (p q : Tri) : euclidean p q = euclidean q p := by
  unfold euclidean
  congr 1
  ring

theorem hyab_comm (p q : Tri) : hyab p q = hyab q p := by
  unfold hyab
  rw [abs_sub_comm]
  congr 1
  ring_nf

theorem delta_E_CIE1976_comm (s : DomainRangeScale) (a b : Tri) :
    delta_E_CIE1976 s a b = delta_E_CIE1976 s b a := by
  unfold delta_E_CIE1976
  exact euclidean_comm _ _

theorem delta_E_ITP_comm (s : DomainRangeScale) (a b : Tri) :
    delta_E_ITP s a b = delta_E_ITP s b a := by
  simp only [delta_E_ITP]
  congr 2
  ring_nf

theorem delta_E_HyAB_comm (s : DomainRangeScale) (a b : Tri) :
    delta_E_HyAB s a b = delta_E_HyAB s b a := by
  unfold delta_E_HyAB
  exact hyab_comm _ _

theorem cie1994_fwd :
    delta_E_CIE1994 .reference ⟨0, 3, 4⟩ ⟨0, 0, 0⟩ false = 200 / 49 := by
  simp only [delta_E_CIE1994, to_domain_100]
  rw [C_star_345, C_star_zero]
  norm_num
  rw [rsqrt_of_sq (by norm_num : (0:ℝ) ≤ 200)
        (by norm_num : (40000:ℝ) = 200 ^ 2),
      rsqrt_of_sq (by norm_num : (0:ℝ) ≤ 49)
        (by norm_num : (2401:ℝ) = 49 ^ 2)]

theorem cie1994_bwd :
    delta_E_CIE1994 .reference ⟨0, 0, 0⟩ ⟨0, 3, 4⟩ false = 5 := by
  simp only [delta_E_CIE1994, to_domain_100]
  rw [C_star_345, C_star_zero]
  norm_num
  exact rsqrt_of_sq (by norm_num) (by norm_num)

theorem cmc_fwd :
    delta_E_CMC .reference ⟨0, 5, 0⟩ ⟨0, 0, 0⟩ 2 1 = 5327500 / 998789 := by
  simp only [delta_E_CMC, to_domain_100]
  rw [C_star_050, C_star_zero]
  norm_num
  rw [rsqrt_of_sq (by norm_num : (0:ℝ) ≤ 5327500)
        (by norm_num : (28382256250000:ℝ) = 5327500 ^ 2),
      rsqrt_of_sq (by norm_num : (0:ℝ) ≤ 998789)
        (by norm_num : (997579466521:ℝ) = 998789 ^ 2)]

theorem cmc_bwd :
    delta_E_CMC .reference ⟨0, 0, 0⟩ ⟨0, 5, 0⟩ 2 1 = 2500 / 319 := by
  simp only [delta_E_CMC, to_domain_100]
  rw [C_star_050, C_star_zero]
  norm_num
  rw [rsqrt_of_sq (by norm_num : (0:ℝ) ≤ 2500)
        (by norm_num : (6250000:ℝ) = 2500 ^ 2),
      rsqrt_of_sq (by norm_num : (0:ℝ) ≤ 319)
        (by norm_num : (101761:ℝ) = 319 ^ 2)]

/-- C8.  Symmetry: delta_E is symmetric in its two colour arguments for
the CIE 1976, ITP and HyAB methods; whereas for CIE 1994 and CMC there
are concrete inputs on which swapping the arguments changes the result,
because the weighting denominators use only the first sample chroma and
lightness. -/
theorem delta_E_symmetry :
    (∀ (s : DomainRangeScale) (a b : Tri) (kw : Kwargs),
      delta_E s a b "CIE 1976" kw = delta_E s b a "CIE 1976" kw) ∧
    (∀ (s : DomainRangeScale) (a b : Tri) (kw : Kwargs),
      delta_E s a b "ITP" kw = delta_E s b a "ITP" kw) ∧
    (∀ (s : DomainRangeScale) (a b : Tri) (kw : Kwargs),
      delta_E s a b "HyAB" kw = delta_E s b a "HyAB" kw) ∧
    (∃ a b : Tri, delta_E .reference a b "CIE 1994" [] ≠
      delta_E .reference b a "CIE 1994" []) ∧
    (∃ a b : Tri, delta_E .reference a b "CMC" [] ≠
      delta_E .reference b a "CMC" []) := by
  refine ⟨?_, ?_, ?_, ?_, ?_⟩
  · intro s a b kw
    exact congrArg Except.ok (delta_E_CIE1976_comm s a b)
  · intro s a b kw
    exact congrArg Except.ok (delta_E_ITP_comm s a b)
  · intro s a b kw
    exact congrArg Except.ok (delta_E_HyAB_comm s a b)
  · refine ⟨⟨0, 3, 4⟩, ⟨0, 0, 0⟩, ?_⟩
    have h1 : delta_E .reference ⟨0, 3, 4⟩ ⟨0, 0, 0⟩ "CIE 1994" [] =
        .ok (200 / 49) := congrArg Except.ok cie1994_fwd
    have h2 : delta_E .reference ⟨0, 0, 0⟩ ⟨0, 3, 4⟩ "CIE 1994" [] =
        .ok 5 := congrArg Except.ok cie1994_bwd
    rw [h1, h2]
    intro hcontra
    simp only [Except.ok.injEq] at hcontra
    norm_num at hcontra
  · refine ⟨⟨0, 5, 0⟩, ⟨0, 0, 0⟩, ?_⟩
    have h1 : delta_E .reference ⟨0, 5, 0⟩ ⟨0, 0, 0⟩ "CMC" [] =
        .ok (5327500 / 998789) := congrArg Except.ok cmc_fwd
    have h2 : delta_E .reference ⟨0, 0, 0⟩ ⟨0, 5, 0⟩ "CMC" [] =
        .ok (2500 / 319) := congrArg Except.ok cmc_bwd
    rw [h1, h2]
    intro hcontra
    simp only [Except.ok.injEq] at hcontra
    norm_num at hcontra

-- known-value regression support: interval evaluation of the square-root
-- only formulas at the documented regression inputs

theorem sqrt_between (S lo hi : ℝ) (hlo : 0 ≤ lo) (hhi : 0 < hi)
    (h1 : lo ^ 2 < S) (h2 : S < hi ^ 2) :
    lo < Real.sqrt S ∧ Real.sqrt S < hi :=
  ⟨(Real.lt_sqrt hlo).mpr h1, (Real.sqrt_lt' hhi).mpr h2⟩

theorem abs_sqrt_sub_lt (S v e : ℝ) (he : 0 < e) (hev : e ≤ v)
    (h1 : (v - e) ^ 2 < S) (h2 : S < (v + e) ^ 2) :
    |Real.sqrt S - v| < e := by
  obtain ⟨hl, hh⟩ := sqrt_between S (v - e) (v + e) (by linarith) (by linarith) h1 h2
  rw [abs_sub_lt_iff]
  constructor <;> linarith

theorem cie1976_known_value :
    |delta_E_CIE1976 .reference ⟨48.99183622, -0.10561667, 400.65619925⟩
        ⟨50.65907324, -0.11671910, 402.82235718⟩ - 2.7335037| < 0.000001 := by
  simp only [delta_E_CIE1976, to_domain_100, euclidean]
  apply abs_sqrt_sub_lt _ _ _ (by norm_num) (by norm_num) (by norm_num) (by norm_num)

set_option maxHeartbeats 2000000 in
theorem cie1994_known_value :
    |delta_E_CIE1994 .reference ⟨48.99183622, -0.10561667, 400.65619925⟩
        ⟨50.65907324, -0.11671910, 402.82235718⟩ false - 1.6711191| < 0.000001 := by
  obtain ⟨hA1, hA2⟩ := sqrt_between ((-0.10561667:ℝ)^2 + 400.65619925^2)
    400.656213170 400.656213171 (by norm_num) (by norm_num) (by norm_num) (by norm_num)
  obtain ⟨hB1, hB2⟩ := sqrt_between ((-0.11671910:ℝ)^2 + 402.82235718^2)
    402.822374089 402.822374090 (by norm_num) (by norm_num) (by norm_num) (by norm_num)
  simp only [delta_E_CIE1994, to_domain_100, C_star, Bool.false_eq_true, if_false]
  set A := Real.sqrt ((-0.10561667:ℝ)^2 + 400.65619925^2)
  set B := Real.sqrt ((-0.11671910:ℝ)^2 + 402.82235718^2)
  have e1 : (0:ℝ) < 2.166160920 + (A - B) := by linarith
  have e2 : (0:ℝ) < 2.166160920 - (A - B) := by linarith
  have hdsq_hi : (A - B)^2 < 2.166160920^2 := by nlinarith [mul_pos e1 e2]
  have e3 : (0:ℝ) < -(A - B) - 2.166160918 := by linarith
  have e4 : (0:ℝ) < -(A - B) + 2.166160918 := by linarith
  have hdsq_lo : (2.166160918:ℝ)^2 < (A - B)^2 := by nlinarith [mul_pos e3 e4]
  have hscpos : (0:ℝ) < 1 + 0.045 * A := by linarith
  have hshpos : (0:ℝ) < 1 + 0.015 * A := by linarith
  have hsc1 : (19.02952959265:ℝ) < 1 + 0.045 * A := by linarith
  have hsc2 : 1 + 0.045 * A < 19.029529592695 := by linarith
  have hsh1 : (7.00984319755:ℝ) < 1 + 0.015 * A := by linarith
  have hsh2 : 1 + 0.015 * A < 7.009843197565 := by linarith
  have hHnn : (0:ℝ) ≤ (-0.10561667 - -0.11671910:ℝ)^2 +
      (400.65619925 - 402.82235718:ℝ)^2 - (A - B)^2 := by
    nlinarith [hdsq_hi]
  have hrw : (Real.sqrt ((-0.10561667 - -0.11671910:ℝ)^2 +
      (400.65619925 - 402.82235718:ℝ)^2 - (A - B)^2) / (1 + 0.015 * A))^2 =
      ((-0.10561667 - -0.11671910:ℝ)^2 + (400.65619925 - 402.82235718:ℝ)^2 -
        (A - B)^2) / (1 + 0.015 * A)^2 := by
    rw [div_pow, Real.sq_sqrt hHnn]
  rw [hrw]
  have ht2_hi : ((A - B) / (1 + 0.045 * A))^2 ≤
      2.166160920^2 / 19.02952959265^2 := by
    rw [div_pow]
    exact div_le_div₀ (by norm_num) (le_of_lt hdsq_hi) (by norm_num)
      (pow_le_pow_left₀ (by norm_num) (le_of_lt hsc1) 2)
  have ht2_lo : (2.166160918:ℝ)^2 / 19.029529592695^2 ≤
      ((A - B) / (1 + 0.045 * A))^2 := by
    rw [div_pow]
    exact div_le_div₀ (sq_nonneg _) (le_of_lt hdsq_lo) (pow_pos hscpos 2)
      (pow_le_pow_left₀ (le_of_lt hscpos) (le_of_lt hsc2) 2)
  have ht3_hi : ((-0.10561667 - -0.11671910:ℝ)^2 +
      (400.65619925 - 402.82235718:ℝ)^2 - (A - B)^2) / (1 + 0.015 * A)^2 ≤
      ((-0.10561667 - -0.11671910:ℝ)^2 + (400.65619925 - 402.82235718:ℝ)^2 -
        2.166160918^2) / 7.00984319755^2 := by
    exact div_le_div₀ (by norm_num) (by linarith) (by norm_num)
      (pow_le_pow_left₀ (by norm_num) (le_of_lt hsh1) 2)
  have ht3_lo : ((-0.10561667 - -0.11671910:ℝ)^2 +
      (400.65619925 - 402.82235718:ℝ)^2 - 2.166160920^2) / 7.009843197565^2 ≤
      ((-0.10561667 - -0.11671910:ℝ)^2 + (400.65619925 - 402.82235718:ℝ)^2 -
        (A - B)^2) / (1 + 0.015 * A)^2 := by
    exact div_le_div₀ hHnn (by linarith) (pow_pos hshpos 2)
      (pow_le_pow_left₀ (le_of_lt hshpos) (le_of_lt hsh2) 2)
  apply abs_sqrt_sub_lt _ _ _ (by norm_num) (by norm_num)
  · have hgoal : ((1.6711191:ℝ) - 0.000001)^2 <
        ((48.99183622 - 50.65907324:ℝ) / (1 * 1))^2 +
        (2.166160918:ℝ)^2 / 19.029529592695^2 +
        ((-0.10561667 - -0.11671910:ℝ)^2 + (400.65619925 - 402.82235718:ℝ)^2 -
          2.166160920^2) / 7.009843197565^2 := by norm_num
    linarith
  · have hgoal : ((48.99183622 - 50.65907324:ℝ) / (1 * 1))^2 +
        2.166160920^2 / 19.02952959265^2 +
        ((-0.10561667 - -0.11671910:ℝ)^2 + (400.65619925 - 402.82235718:ℝ)^2 -
          2.166160918^2) / 7.00984319755^2 < ((1.6711191:ℝ) + 0.000001)^2 := by
      norm_num
    linarith

set_option maxHeartbeats 2000000 in
theorem cie1994_textiles_known_value :
    |delta_E_CIE1994 .reference ⟨48.99183622, -0.10561667, 400.65619925⟩
        ⟨50.65907324, -0.11671910, 402.82235718⟩ true - 0.8404677| < 0.000001 := by
  obtain ⟨hA1, hA2⟩ := sqrt_between ((-0.10561667:ℝ)^2 + 400.65619925^2)
    400.656213170 400.656213171 (by norm_num) (by norm_num) (by norm_num) (by norm_num)
  obtain ⟨hB1, hB2⟩ := sqrt_between ((-0.11671910:ℝ)^2 + 402.82235718^2)
    402.822374089 402.822374090 (by norm_num) (by norm_num) (by norm_num) (by norm_num)
  simp only [delta_E_CIE1994, to_domain_100, C_star, eq_self_iff_true, if_true]
  set A := Real.sqrt ((-0.10561667:ℝ)^2 + 400.65619925^2)
  set B := Real.sqrt ((-0.11671910:ℝ)^2 + 402.82235718^2)
  have e1 : (0:ℝ) < 2.166160920 + (A - B) := by linarith
  have e2 : (0:ℝ) < 2.166160920 - (A - B) := by linarith
  have hdsq_hi : (A - B)^2 < 2.166160920^2 := by nlinarith [mul_pos e1 e2]
  have e3 : (0:ℝ) < -(A - B) - 2.166160918 := by linarith
  have e4 : (0:ℝ) < -(A - B) + 2.166160918 := by linarith
  have hdsq_lo : (2.166160918:ℝ)^2 < (A - B)^2 := by nlinarith [mul_pos e3 e4]
  have hscpos : (0:ℝ) < 1 + 0.048 * A := by linarith
  have hshpos : (0:ℝ) < 1 + 0.014 * A := by linarith
  have hsc1 : (20.23149823216:ℝ) < 1 + 0.048 * A := by linarith
  have hsc2 : 1 + 0.048 * A < 20.231498232208 := by linarith
  have hsh1 : (6.60918698438:ℝ) < 1 + 0.014 * A := by linarith
  have hsh2 : 1 + 0.014 * A < 6.609186984394 := by linarith
  have hHnn : (0:ℝ) ≤ (-0.10561667 - -0.11671910:ℝ)^2 +
      (400.65619925 - 402.82235718:ℝ)^2 - (A - B)^2 := by
    nlinarith [hdsq_hi]
  have hrw : (Real.sqrt ((-0.10561667 - -0.11671910:ℝ)^2 +
      (400.65619925 - 402.82235718:ℝ)^2 - (A - B)^2) / (1 + 0.014 * A))^2 =
      ((-0.10561667 - -0.11671910:ℝ)^2 + (400.65619925 - 402.82235718:ℝ)^2 -
        (A - B)^2) / (1 + 0.014 * A)^2 := by
    rw [div_pow, Real.sq_sqrt hHnn]
  rw [hrw]
  have ht2_hi : ((A - B) / (1 + 0.048 * A))^2 ≤
      2.166160920^2 / 20.23149823216^2 := by
    rw [div_pow]
    exact div_le_div₀ (by norm_num) (le_of_lt hdsq_hi) (by norm_num)
      (pow_le_pow_left₀ (by norm_num) (le_of_lt hsc1) 2)
  have ht2_lo : (2.166160918:ℝ)^2 / 20.231498232208^2 ≤
      ((A - B) / (1 + 0.048 * A))^2 := by
    rw [div_pow]
    exact div_le_div₀ (sq_nonneg _) (le_of_lt hdsq_lo) (pow_pos hscpos 2)
      (pow_le_pow_left₀ (le_of_lt hscpos) (le_of_lt hsc2) 2)
  have ht3_hi : ((-0.10561667 - -0.11671910:ℝ)^2 +
      (400.65619925 - 402.82235718:ℝ)^2 - (A - B)^2) / (1 + 0.014 * A)^2 ≤
      ((-0.10561667 - -0.11671910:ℝ)^2 + (400.65619925 - 402.82235718:ℝ)^2 -
        2.166160918^2) / 6.60918698438^2 := by
    exact div_le_div₀ (by norm_num) (by linarith) (by norm_num)
      (pow_le_pow_left₀ (by norm_num) (le_of_lt hsh1) 2)
  have ht3_lo : ((-0.10561667 - -0.11671910:ℝ)^2 +
      (400.65619925 - 402.82235718:ℝ)^2 - 2.166160920^2) / 6.609186984394^2 ≤
      ((-0.10561667 - -0.11671910:ℝ)^2 + (400.65619925 - 402.82235718:ℝ)^2 -
        (A - B)^2) / (1 + 0.014 * A)^2 := by
    exact div_le_div₀ hHnn (by linarith) (pow_pos hshpos 2)
      (pow_le_pow_left₀ (le_of_lt hshpos) (le_of_lt hsh2) 2)
  apply abs_sqrt_sub_lt _ _ _ (by norm_num) (by norm_num)
  · have hgoal : ((0.8404677:ℝ) - 0.000001)^2 <
        ((48.99183622 - 50.65907324:ℝ) / (2 * 1))^2 +
        (2.166160918:ℝ)^2 / 20.231498232208^2 +
        ((-0.10561667 - -0.11671910:ℝ)^2 + (400.65619925 - 402.82235718:ℝ)^2 -
          2.166160920^2) / 6.609186984394^2 := by norm_num
    linarith
  · have hgoal : ((48.99183622 - 50.65907324:ℝ) / (2 * 1))^2 +
        2.166160920^2 / 20.23149823216^2 +
        ((-0.10561667 - -0.11671910:ℝ)^2 + (400.65619925 - 402.82235718:ℝ)^2 -
          2.166160918^2) / 6.60918698438^2 < ((0.8404677:ℝ) + 0.000001)^2 := by
      norm_num
    linarith
